import Mathlib

/-!
Shallow embedding of `src/fetch_github_trending/main_en.py` (and, for the
equivalence claim, `src/fetch_github_trending/main_zh.py`): a GitHub-trending
MCP server with two tools, `get_github_trending` and `get_repository_readme`.

Python strings are modelled as `List Char` (Python `str` is a sequence of code
points).  HTTP transport is modelled as an explicit oracle function from the
requested URL to an outcome (`requests.get` raising, or a response with a
status code and a body); the embedding threads this oracle and additionally
records the trace of URLs fetched, in order, so that claims about which
network calls happen (and in which order) are statable.
-/

/-- Python string basics: a Python `str` value as a list of code points. -/
abbrev PyStr := List Char

/-- `s.strip()` on a Python string: drop leading and trailing whitespace. -/
def pyStrip (s : PyStr) : PyStr :=
  ((s.dropWhile Char.isWhitespace).reverse.dropWhile Char.isWhitespace).reverse

/-- `s.lower()` on a Python string (per code point). -/
def pyLower (s : PyStr) : PyStr := s.map Char.toLower

/-- Does `l` start with `pre`? (helper for the substring test). -/
def listStartsWith (pre l : PyStr) : Bool :=
  match pre, l with
  | [], _ => true
  | _ :: _, [] => false
  | p :: ps, c :: cs => (c = p) && listStartsWith ps cs

/-- Python `needle in hay` on strings: substring containment. -/
def pyContains (needle hay : PyStr) : Bool :=
  match hay with
  | [] => listStartsWith needle []
  | _ :: rest => listStartsWith needle hay || pyContains needle rest

/-- The outcome the transport oracle reports for one `requests.get(url)` call:
either the call raised (any exception), or it returned a response with a
status code and a text body. -/
inductive FetchResult where
  | exn (msg : PyStr)
  | resp (status : Nat) (body : PyStr)
  deriving DecidableEq

/-- The transport oracle: what `requests.get` does at each URL. -/
abbrev Transport := PyStr → FetchResult

/-! ## `get_repository_readme`: the README candidate cascade (main_en.py lines 178-197) -/

/-- `branches = ['main', 'master']` (main_en.py line 179). -/
def branches : List PyStr := ["main".data, "master".data]

/-- `readme_files = ['README.md', 'readme.md', 'Readme.md', 'README.txt', 'readme.txt']`
(main_en.py line 180). -/
def readme_files : List PyStr :=
  ["README.md".data, "readme.md".data, "Readme.md".data, "README.txt".data, "readme.txt".data]

/-- `url = f"https://raw.githubusercontent.com/{repo}/refs/heads/{branch}/{readme_file}"`
(main_en.py line 187). -/
def candidateUrl (repo branch file : PyStr) : PyStr :=
  "https://raw.githubusercontent.com/".data ++ repo ++ "/refs/heads/".data ++ branch
    ++ "/".data ++ file

/-- The mutable state of the cascade loop: `readme_content`, `found_url`
(main_en.py lines 182-183), plus the instrumented trace of URLs fetched. -/
structure CascadeState where
  readme_content : Option PyStr
  found_url : Option PyStr
  attempts : List PyStr
  deriving DecidableEq

/-- The inner `for readme_file in readme_files:` loop for one branch
(main_en.py lines 186-195): fetch each candidate URL; a raise is swallowed
(`except: continue`); a status-200 response stores the body and URL and
breaks; any other status continues. -/
def innerLoop (fetch : Transport) (repo branch : PyStr) :
    List PyStr → CascadeState → CascadeState
  | [], st => st
  | f :: fs, st =>
    let url := candidateUrl repo branch f
    let st' : CascadeState := { st with attempts := st.attempts ++ [url] }
    match fetch url with
    | .exn _ => innerLoop fetch repo branch fs st'
    | .resp status body =>
      if status = 200 then
        { st' with readme_content := some body, found_url := some url }
      else
        innerLoop fetch repo branch fs st'

/-- Python truthiness of `readme_content` (`if readme_content:`): `None` and
the empty string are falsy. -/
def contentTruthy : Option PyStr → Bool
  | none => false
  | some c => !c.isEmpty

/-- The outer `for branch in branches:` loop (main_en.py lines 185-197):
run the inner loop for each branch; after each branch, `if readme_content:
break` — note this is Python truthiness, so a stored empty string does NOT
break the outer loop. -/
def outerLoop (fetch : Transport) (repo : PyStr) :
    List PyStr → CascadeState → CascadeState
  | [], st => st
  | b :: bs, st =>
    let st' := innerLoop fetch repo b readme_files st
    if contentTruthy st'.readme_content then st' else outerLoop fetch repo bs st'

/-- The whole cascade for one repository identifier (already validated):
loops over `branches` starting from `readme_content = None, found_url = None`. -/
def resolveReadme (fetch : Transport) (repo : PyStr) : CascadeState :=
  outerLoop fetch repo branches ⟨none, none, []⟩

/-- The truncation marker appended by main_en.py line 202. -/
def truncMarker : PyStr := "\n\n... [Content too long, truncated] ...".data

/-- Content-length limiting (main_en.py lines 200-202):
`if len(readme_content) > 50000: readme_content = readme_content[:50000] + marker`. -/
def truncateReadme (content : PyStr) : PyStr :=
  if content.length > 50000 then content.take 50000 ++ truncMarker else content

/-- `"\n".join(lines)`. -/
def pyJoinNL (lines : List PyStr) : PyStr := List.intercalate ['\n'] lines

/-- Report lines for a malformed identifier (main_en.py lines 172-175). -/
def formatErrorLines (repo : PyStr) : List PyStr :=
  ["❌ Invalid repository name format: ".data ++ repo,
   "   Correct format should be: owner/repository-name".data,
   "---".data, [] ]

/-- Report lines on success (main_en.py lines 204-208). -/
def successLines (repo foundUrl content : PyStr) : List PyStr :=
  ["✅ Successfully retrieved (Source: ".data ++ foundUrl ++ ")".data,
   "Repository: ".data ++ repo,
   "README:".data, content, "---\n\n".data]

/-- Report lines when the cascade found nothing readable (main_en.py lines 210-215). -/
def notFoundLines (repo : PyStr) : List PyStr :=
  ["❌ README file not found".data,
   "   Tried branches: main, master".data,
   "   Tried files: README.md, readme.md, Readme.md, README.txt, readme.txt".data,
   "Repository: ".data ++ repo,
   "README: No readable README file found".data, "---\n\n".data]

/-- One iteration of `for repo in repositories:` (main_en.py lines 163-215):
strip, skip if empty, report a format error (with no fetch) if `'/'` is
absent, otherwise run the cascade and report.  Returns the report lines this
repository contributes and the URLs fetched for it. -/
def processRepo (fetch : Transport) (repo : PyStr) : List PyStr × List PyStr :=
  let r := pyStrip repo
  if r.isEmpty then ([], [])
  else if '/' ∈ r then
    let st := resolveReadme fetch r
    if contentTruthy st.readme_content then
      (successLines r (st.found_url.getD []) (truncateReadme (st.readme_content.getD [])),
       st.attempts)
    else
      (notFoundLines r, st.attempts)
  else
    (formatErrorLines r, [])

/-- The loop over the whole `repositories` batch, concatenating report lines
and fetch traces in input order. -/
def repoLoop (fetch : Transport) : List PyStr → List PyStr × List PyStr
  | [] => ([], [])
  | r :: rs =>
    let p := processRepo fetch r
    let q := repoLoop fetch rs
    (p.1 ++ q.1, p.2 ++ q.2)

/-- Closing suggestion lines (main_en.py lines 223-226). -/
def readmeSuggestLines : List PyStr :=
  ["💡 Suggested next steps:".data,
   "- 1. Analyze detailed information and technical features of each project".data,
   "- 2. If particularly interested in a project, further study its implementation details".data,
   "- 3. Summarize technical highlights and application scenarios of the projects".data]

/-- The validation error for an empty repositories list (main_en.py line 158). -/
def emptyReposError : PyStr :=
  "❌ Error: repositories parameter cannot be empty, please provide at least one repository name".data

/-- `get_repository_readme` (main_en.py lines 148-228): reject an empty batch
before any fetch, otherwise process each identifier independently and join
the report lines.  Second component: the trace of all URLs fetched. -/
def getRepositoryReadme (fetch : Transport) (repositories : List PyStr) :
    PyStr × List PyStr :=
  if repositories.isEmpty then (emptyReposError, [])
  else
    let p := repoLoop fetch repositories
    (pyJoinNL ("📚 GitHub Repository README Documents".data :: (p.1 ++ readmeSuggestLines)),
     p.2)

/-! ## `get_github_trending`: page scraping and per-fragment extraction
(main_en.py lines 27-144) -/

/-- An `<a>` element as the extractor consumes it: its `get_text(strip=True)`
and its `href` attribute (absent attribute ⇒ `get('href', '')` defaults). -/
structure LinkElem where
  text : PyStr
  href : Option PyStr
  deriving DecidableEq

/-- The `<h2 class="h3">` title element: all the extractor asks of it is its
first `<a>` descendant (`title_elem.find('a')`), if any. -/
structure TitleElem where
  link : Option LinkElem
  deriving DecidableEq

/-- One `<article class="Box-row">` fragment, abstracted to exactly the
lookups main_en.py lines 83-121 perform on it: each `find` result is `none`
when the element is absent, otherwise the matched element's extracted text
(`get_text(strip=True)`); `spans` is the `find_all('span')` text list in
document order. -/
structure Article where
  titleElem : Option TitleElem
  descriptionElem : Option PyStr
  languageElem : Option PyStr
  starLink : Option PyStr
  forkLink : Option PyStr
  spans : List PyStr
  deriving DecidableEq

/-- `' '.join(text.split())` (main_en.py line 92): split on whitespace runs,
drop empties, re-join with single spaces. -/
def normalizeTitle (t : PyStr) : PyStr :=
  List.intercalate [' ']
    ((t.splitOnP Char.isWhitespace).filter (fun w => !w.isEmpty))

/-- One attempt of the regex `(\d+[,\d]*)\s*stars?` (case-insensitive) anchored
at the start of `cs`: greedily take digits, then commas/digits, then
whitespace, then require `star`; return group 1.  (The character classes are
pairwise disjoint, so greedy matching without backtracking coincides with the
regex engine's result; the optional trailing `s` never affects group 1.) -/
def matchNumStarsAt (cs : PyStr) : Option PyStr :=
  let digits := cs.takeWhile Char.isDigit
  if digits.isEmpty then none
  else
    let rest1 := cs.drop digits.length
    let commaDigits := rest1.takeWhile (fun c => c = ',' || c.isDigit)
    let rest2 := rest1.drop commaDigits.length
    let rest3 := rest2.dropWhile Char.isWhitespace
    if listStartsWith "star".data (pyLower rest3) then some (digits ++ commaDigits)
    else none

/-- `re.search(r'(\d+[,\d]*)\s*stars?', text, re.IGNORECASE)` (main_en.py
line 118): leftmost match wins; `none` when the pattern occurs nowhere. -/
def searchNumStars : PyStr → Option PyStr
  | [] => none
  | c :: rest =>
    match matchNumStarsAt (c :: rest) with
    | some g => some g
    | none => searchNumStars rest

/-- The period-stars span test (main_en.py lines 116-117): the lowered text
contains `stars` and contains `today`, `this week` or `this month` —
note the test does NOT depend on the requested `since`. -/
def isPeriodSpan (t : PyStr) : Bool :=
  pyContains "stars".data (pyLower t) &&
    (pyContains "today".data (pyLower t) || pyContains "this week".data (pyLower t)
      || pyContains "this month".data (pyLower t))

/-- The period-stars loop (main_en.py lines 112-121): `period_stars = "0"`;
scan spans in order; at the FIRST span passing `isPeriodSpan`, run the regex
(keeping `"0"` if it fails) and break. -/
def findPeriodStars : List PyStr → PyStr
  | [] => "0".data
  | t :: rest =>
    if isPeriodSpan t then
      match searchNumStars t with
      | some g => g
      | none => "0".data
    else
      findPeriodStars rest

/-- A successfully extracted trending entry (the seven field values main_en.py
lines 92-121 compute for one article). -/
structure TrendingEntry where
  title : PyStr
  projectUrl : PyStr
  description : PyStr
  language : PyStr
  totalStars : PyStr
  totalForks : PyStr
  periodStars : PyStr
  deriving DecidableEq

/-- Per-article extraction (main_en.py lines 83-121): skip (`continue`) when
the `h2.h3` element or its `<a>` is missing; otherwise every remaining field
falls back independently to its default. -/
def extractEntry (a : Article) : Option TrendingEntry :=
  match a.titleElem with
  | none => none
  | some te =>
    match te.link with
    | none => none
    | some link =>
      some
        { title := normalizeTitle link.text
          projectUrl := "https://github.com".data ++ link.href.getD []
          description := a.descriptionElem.getD "No description".data
          language := a.languageElem.getD "Unknown".data
          totalStars := a.starLink.getD "0".data
          totalForks := a.forkLink.getD "0".data
          periodStars := findPeriodStars a.spans }

/-- The `for i, article in enumerate(articles, 1):` loop (main_en.py lines
81-131), projected to the entries it successfully extracts, in document
order (a skipped article contributes nothing). -/
def extractEntries : List Article → List TrendingEntry
  | [] => []
  | a :: rest =>
    match extractEntry a with
    | none => extractEntries rest
    | some e => e :: extractEntries rest

/-- The trending page transport: for the one listing-page GET, either
`requests.get` raises, or it returns a response with a status code and a
body already abstracted to its parsed `article.Box-row` fragments (the
result of `soup.find_all('article', class_='Box-row')` in document order). -/
inductive TrendFetchResult where
  | exn (msg : PyStr)
  | resp (status : Nat) (articles : List Article)
  deriving DecidableEq

/-- `valid_since = ["daily", "weekly", "monthly"]` (main_en.py line 42). -/
def valid_since : List PyStr := ["daily".data, "weekly".data, "monthly".data]

/-- URL construction (main_en.py lines 47-50): language-specific path when a
language filter is supplied (Python truthiness: nonempty), else unfiltered. -/
def buildTrendingUrl (since language : PyStr) : PyStr :=
  if language.isEmpty then
    "https://github.com/trending?since=".data ++ since
  else
    "https://github.com/trending/".data ++ pyLower language ++ "?since=".data ++ since

/-- The invalid-`since` validation message (main_en.py line 44). -/
def invalidSinceMsg : PyStr :=
  "❌ Error: since parameter must be one of: daily, weekly, monthly".data

/-- The `except requests.exceptions.RequestException` rendering (main_en.py
line 142). -/
def networkErrorMsg (e url : PyStr) : PyStr :=
  "❌ Network request error: ".data ++ e ++ "\nRequested URL: ".data ++ url
    ++ "\nSuggest checking network connection or retry later".data

/-- The empty-result rendering (main_en.py line 70). -/
def noResultsMsg (url : PyStr) : PyStr :=
  "❌ No trending projects found, possible page structure change or network issue\nRequested URL: ".data
    ++ url

/-- The exception text of the `requests.HTTPError` that `raise_for_status()`
raises on a 4xx/5xx status.  The claims never depend on this text's exact
content (only on the surrounding `networkErrorMsg` template), so a simple
rendering of the status and URL stands in for the library's message. -/
def httpErrorText (status : Nat) (url : PyStr) : PyStr :=
  (Nat.repr status).data ++ " Error for url: ".data ++ url

/-- `since_display.get(since, since)` (main_en.py line 60). -/
def sinceDisplay (since : PyStr) : PyStr :=
  if since = "daily".data then "Today".data
  else if since = "weekly".data then "This Week".data
  else if since = "monthly".data then "This Month".data
  else since

/-- The four report lines for one successfully extracted entry (main_en.py
lines 123-127); `i` is the 1-based `enumerate` index of the article. -/
def entryLines (sinceDisp : PyStr) (i : Nat) (e : TrendingEntry) : List PyStr :=
  [(Nat.repr i).data ++ ". ".data ++ e.title,
   "   🔗 ".data ++ e.projectUrl,
   "   📝 ".data ++ e.description,
   "   💻 Language: ".data ++ e.language ++ " | ⭐ Total Stars: ".data ++ e.totalStars
     ++ " | 🍴 Forks: ".data ++ e.totalForks ++ " | 🔥 ".data ++ sinceDisp ++ ": +".data
     ++ e.periodStars]

/-- The article loop rendered to report lines (main_en.py lines 81-131):
skipped articles contribute no lines but still advance the enumerate index. -/
def articleLoop (sinceDisp : PyStr) (i : Nat) : List Article → List PyStr
  | [] => []
  | a :: rest =>
    (match extractEntry a with
     | none => []
     | some e => entryLines sinceDisp i e) ++ articleLoop sinceDisp (i + 1) rest

/-- The report header lines (main_en.py lines 73-79). -/
def trendingHeader (since language dateStr weekdayStr : PyStr) (n : Nat) : List PyStr :=
  ["🌟 GitHub Trending Repositories".data,
   "📅 Retrieved on: ".data ++ dateStr ++ " ".data ++ weekdayStr,
   "⏰ Time Range: ".data ++ sinceDisplay since]
  ++ (if language.isEmpty then [] else ["💻 Language: ".data ++ language])
  ++ ["📊 Found ".data ++ (Nat.repr n).data ++ " trending projects".data, []]

/-- The closing suggestion lines (main_en.py lines 133-137). -/
def trendingTrailer : List PyStr :=
  [[], "💡 Suggested next steps:".data,
   "1. Analyze GitHub trending project trends".data,
   "2. If interested in specific projects, use get_repository_readme tool to get detailed documentation".data]

/-- `get_github_trending` (main_en.py lines 27-144).  `dateStr`/`weekdayStr`
stand for the `datetime.now()` readings (an effect passed in as data).
Returns the report text and the trace of listing URLs fetched.
Validation of `since` happens before the URL is even built; inside the
`try`, `raise_for_status()` raises `requests.HTTPError` exactly for statuses
in 400..599, and that exception — like any transport exception — is caught
by the `except RequestException` arm and rendered; an empty fragment list
short-circuits to the no-results message; otherwise the report is built. -/
def getGithubTrending (since language dateStr weekdayStr : PyStr)
    (fetch : PyStr → TrendFetchResult) : PyStr × List PyStr :=
  if since ∉ valid_since then (invalidSinceMsg, [])
  else
    let url := buildTrendingUrl since language
    match fetch url with
    | .exn msg => (networkErrorMsg msg url, [url])
    | .resp status articles =>
      if 400 ≤ status ∧ status < 600 then
        (networkErrorMsg (httpErrorText status url) url, [url])
      else if articles.isEmpty then
        (noResultsMsg url, [url])
      else
        (pyJoinNL (trendingHeader since language dateStr weekdayStr articles.length
            ++ articleLoop (sinceDisplay since) 1 articles ++ trendingTrailer),
         [url])

/-! ## The Chinese copy (`main_zh.py`): the same logic with localized display
strings.  The decision-relevant definitions are re-translated separately from
`main_zh.py` so that the equivalence claim compares two independent
embeddings. -/

/-- `valid_since` of main_zh.py line 39. -/
def valid_sinceZh : List PyStr := ["daily".data, "weekly".data, "monthly".data]

/-- URL construction of main_zh.py lines 44-47. -/
def buildTrendingUrlZh (since language : PyStr) : PyStr :=
  if language.isEmpty then
    "https://github.com/trending?since=".data ++ since
  else
    "https://github.com/trending/".data ++ pyLower language ++ "?since=".data ++ since

/-- Per-article extraction of main_zh.py lines 80-118: identical lookups with
the localized fallback sentinels `无描述` and `未知`. -/
def extractEntryZh (a : Article) : Option TrendingEntry :=
  match a.titleElem with
  | none => none
  | some te =>
    match te.link with
    | none => none
    | some link =>
      some
        { title := normalizeTitle link.text
          projectUrl := "https://github.com".data ++ link.href.getD []
          description := a.descriptionElem.getD "无描述".data
          language := a.languageElem.getD "未知".data
          totalStars := a.starLink.getD "0".data
          totalForks := a.forkLink.getD "0".data
          periodStars := findPeriodStars a.spans }

/-- The inner candidate loop of main_zh.py lines 181-191 (same logic as the
English file). -/
def innerLoopZh (fetch : Transport) (repo branch : PyStr) :
    List PyStr → CascadeState → CascadeState
  | [], st => st
  | f :: fs, st =>
    let url := candidateUrl repo branch f
    let st' : CascadeState := { st with attempts := st.attempts ++ [url] }
    match fetch url with
    | .exn _ => innerLoopZh fetch repo branch fs st'
    | .resp status body =>
      if status = 200 then
        { st' with readme_content := some body, found_url := some url }
      else
        innerLoopZh fetch repo branch fs st'

/-- The outer branch loop of main_zh.py lines 181-193. -/
def outerLoopZh (fetch : Transport) (repo : PyStr) :
    List PyStr → CascadeState → CascadeState
  | [], st => st
  | b :: bs, st =>
    let st' := innerLoopZh fetch repo b readme_files st
    if contentTruthy st'.readme_content then st' else outerLoopZh fetch repo bs st'

/-- The whole cascade of main_zh.py lines 175-193. -/
def resolveReadmeZh (fetch : Transport) (repo : PyStr) : CascadeState :=
  outerLoopZh fetch repo branches ⟨none, none, []⟩

/-- The truncation marker of main_zh.py line 198. -/
def truncMarkerZh : PyStr := "\n\n... [内容过长，已截断] ...".data

/-- Content-length limiting of main_zh.py lines 196-198. -/
def truncateReadmeZh (content : PyStr) : PyStr :=
  if content.length > 50000 then content.take 50000 ++ truncMarkerZh else content

/-! ## Helper notions for stating the claims -/

/-- Does a fetch outcome have status 200? -/
def is200 (r : FetchResult) : Bool :=
  match r with
  | .resp status _ => status = 200
  | .exn _ => false

/-- Does a fetch outcome have status 200 with an empty body?  (The degenerate
case around which the cascade's Python truthiness pivots.) -/
def isEmptyHit (r : FetchResult) : Bool :=
  match r with
  | .resp status b => status = 200 && b.isEmpty
  | .exn _ => false

/-- The priority-ordered list of all ten candidate URLs for a repository:
branch outer, filename inner. -/
def candidates (repo : PyStr) : List PyStr :=
  (branches.map fun b => readme_files.map fun f => candidateUrl repo b f).flatten

/-- The given URL list truncated just after its first status-200 element
(the whole list when none has status 200). -/
def takeThrough200 (fetch : Transport) : List PyStr → List PyStr
  | [] => []
  | u :: us => u :: (if is200 (fetch u) then [] else takeThrough200 fetch us)

/-- The first URL in the list whose fetch has status 200, with that
response's body. -/
def firstHit (fetch : Transport) : List PyStr → Option (PyStr × PyStr)
  | [] => none
  | u :: us =>
    match fetch u with
    | .resp status b => if status = 200 then some (u, b) else firstHit fetch us
    | .exn _ => firstHit fetch us

lemma firstHit_none_iff (fetch : Transport) (l : List PyStr) :
    firstHit fetch l = none ↔ ∀ u ∈ l, is200 (fetch u) = false := by
  induction l with
  | nil => simp [firstHit]
  | cons u us ih =>
    cases h : fetch u with
    | exn m => simp [firstHit, h, ih, is200]
    | resp status b =>
      by_cases hs : status = 200
      · subst hs
        simp [firstHit, h, is200]
      · simp [firstHit, h, hs, ih, is200]

lemma firstHit_eq_some (fetch : Transport) (l : List PyStr) (u b : PyStr)
    (h : firstHit fetch l = some (u, b)) : u ∈ l ∧ fetch u = .resp 200 b := by
  induction l with
  | nil => simp [firstHit] at h
  | cons v vs ih =>
    cases hv : fetch v with
    | exn m =>
      rw [firstHit, hv] at h
      rcases ih h with ⟨hm, he⟩
      exact ⟨List.mem_cons_of_mem _ hm, he⟩
    | resp status c =>
      by_cases hs : status = 200
      · subst hs
        rw [firstHit, hv] at h
        simp at h
        rcases h with ⟨hu, hb⟩
        subst hu; subst hb
        exact ⟨List.mem_cons_self _ _, hv⟩
      · rw [firstHit, hv] at h
        simp only [if_neg hs] at h
        rcases ih h with ⟨hm, he⟩
        exact ⟨List.mem_cons_of_mem _ hm, he⟩

lemma takeThrough200_of_no200 (fetch : Transport) (l : List PyStr)
    (h : ∀ u ∈ l, is200 (fetch u) = false) : takeThrough200 fetch l = l := by
  induction l with
  | nil => rfl
  | cons u us ih =>
    have hu : is200 (fetch u) = false := h u (List.mem_cons_self _ _)
    rw [takeThrough200, hu]
    simp [ih fun v hv => h v (List.mem_cons_of_mem _ hv)]

lemma takeThrough200_append_of_none (fetch : Transport) (l₁ l₂ : List PyStr)
    (h : firstHit fetch l₁ = none) :
    takeThrough200 fetch (l₁ ++ l₂) = l₁ ++ takeThrough200 fetch l₂ := by
  induction l₁ with
  | nil => simp
  | cons u us ih =>
    have hu : is200 (fetch u) = false :=
      (firstHit_none_iff fetch (u :: us)).1 h u (List.mem_cons_self _ _)
    have hus : firstHit fetch us = none := by
      rw [firstHit_none_iff] at h ⊢
      exact fun v hv => h v (List.mem_cons_of_mem _ hv)
    simp [takeThrough200, hu, ih hus]

lemma takeThrough200_append_of_hit (fetch : Transport) (l₁ l₂ : List PyStr) (p : PyStr × PyStr)
    (h : firstHit fetch l₁ = some p) :
    takeThrough200 fetch (l₁ ++ l₂) = takeThrough200 fetch l₁ := by
  induction l₁ with
  | nil => simp [firstHit] at h
  | cons u us ih =>
    cases hu : fetch u with
    | exn m =>
      rw [firstHit, hu] at h
      simp [takeThrough200, is200, hu, ih h]
    | resp status b =>
      by_cases hs : status = 200
      · subst hs
        simp [takeThrough200, is200, hu]
      · rw [firstHit, hu] at h
        simp only [if_neg hs] at h
        simp [takeThrough200, is200, hu, hs, ih h]

lemma takeThrough200_sublist (fetch : Transport) (l : List PyStr) :
    List.Sublist (takeThrough200 fetch l) l := by
  induction l with
  | nil => simp [takeThrough200]
  | cons u us ih =>
    rw [takeThrough200]
    by_cases hu : is200 (fetch u) = true
    · simp [hu]
    · rw [if_neg hu]
      exact List.Sublist.cons₂ u ih

/-- The period-stars extraction as claim C6 words it: the time-window phrase
must MATCH the requested `since` granularity (`today` for daily, `this week`
for weekly, `this month` for monthly).  This definition follows the claim's
words, NOT the source, so that the two can be compared. -/
def sincePhrase (since : PyStr) : PyStr :=
  if since = "daily".data then "today".data
  else if since = "weekly".data then "this week".data
  else "this month".data

/-- Claim C6's version of the period-stars scan (claim words, not source):
only spans whose text contains `stars` together with the phrase for the
requested granularity count as matches. -/
def claimedPeriodStars (since : PyStr) : List PyStr → PyStr
  | [] => "0".data
  | t :: rest =>
    if pyContains "stars".data (pyLower t)
        && pyContains (sincePhrase since) (pyLower t) then
      match searchNumStars t with
      | some g => g
      | none => "0".data
    else claimedPeriodStars since rest

/-! ## Concrete inputs for counterexamples and witnesses -/

/-- Example repository identifier. -/
def exRepo : PyStr := "octocat/hello".data

/-- A transport where every candidate misses (status 404). -/
def fetchAll404 : Transport := fun _ => .resp 404 []

/-- A transport answering 200 with an EMPTY body for `main/README.md` and 404
everywhere else. -/
def fetchEmptyMainHit : Transport := fun url =>
  if url = candidateUrl exRepo "main".data "README.md".data then .resp 200 []
  else .resp 404 []

/-- A transport answering 200-empty for `main/README.md`, 200 `hello` for
`master/README.md`, 404 everywhere else. -/
def fetchEmptyThenMaster : Transport := fun url =>
  if url = candidateUrl exRepo "main".data "README.md".data then .resp 200 []
  else if url = candidateUrl exRepo "master".data "README.md".data then
    .resp 200 "hello".data
  else .resp 404 []

/-- A transport answering 200 `hello` for the third candidate
`main/Readme.md` only. -/
def fetchThirdHit : Transport := fun url =>
  if url = candidateUrl exRepo "main".data "Readme.md".data then .resp 200 "hello".data
  else .resp 404 []

/-- An example title anchor. -/
def exLink : LinkElem := ⟨"hello world".data, some "/octocat/hello".data⟩

/-- A fragment with every optional element present. -/
def exArticleFull : Article :=
  ⟨some ⟨some exLink⟩, some "A demo project".data, some "Python".data,
   some "1,234".data, some "56".data, ["5 stars this month".data]⟩

/-- A fragment having only the mandatory title anchor. -/
def exArticleBare : Article :=
  ⟨some ⟨some exLink⟩, none, none, none, none, []⟩

/-- A fragment with no `h2.h3` title element at all. -/
def exArticleNoTitle : Article :=
  ⟨none, some "A demo project".data, none, none, none, []⟩

/-- The entry the extractor produces for `exArticleBare` (all defaults). -/
def exEntryBare : TrendingEntry :=
  ⟨"hello world".data, "https://github.com/octocat/hello".data,
   "No description".data, "Unknown".data, "0".data, "0".data, "0".data⟩

/-- The entry the extractor produces for `exArticleFull`. -/
def exEntryFull : TrendingEntry :=
  ⟨"hello world".data, "https://github.com/octocat/hello".data,
   "A demo project".data, "Python".data, "1,234".data, "56".data, "5".data⟩

/-- A trending transport answering 304 with no fragments. -/
def fetch304 : PyStr → TrendFetchResult := fun _ => .resp 304 []

/-- A trending transport answering 500. -/
def fetch500 : PyStr → TrendFetchResult := fun _ => .resp 500 []

/-- A trending transport whose GET raises. -/
def fetchTrendExn : PyStr → TrendFetchResult := fun _ => .exn "timeout".data

lemma candidates_eq (repo : PyStr) :
    candidates repo =
      (readme_files.map fun f => candidateUrl repo "main".data f)
        ++ (readme_files.map fun f => candidateUrl repo "master".data f) := by
  simp [candidates, branches]

lemma innerLoop_spec (fetch : Transport) (repo b : PyStr) :
    ∀ (files : List PyStr) (st : CascadeState),
    innerLoop fetch repo b files st =
      ⟨(firstHit fetch (files.map fun f => candidateUrl repo b f)).elim
          st.readme_content (fun p => some p.2),
       (firstHit fetch (files.map fun f => candidateUrl repo b f)).elim
          st.found_url (fun p => some p.1),
       st.attempts ++ takeThrough200 fetch (files.map fun f => candidateUrl repo b f)⟩ := by
  intro files
  induction files with
  | nil =>
    intro st
    cases st
    simp [innerLoop, firstHit, takeThrough200]
  | cons f fs ih =>
    intro st
    cases st with
    | mk rc fu at_ =>
      cases h : fetch (candidateUrl repo b f) with
      | exn m =>
        simp [innerLoop, h, firstHit, takeThrough200, is200, ih, List.append_assoc]
      | resp status body =>
        by_cases hs : status = 200
        · subst hs
          simp [innerLoop, h, firstHit, takeThrough200, is200]
        · simp [innerLoop, h, hs, firstHit, takeThrough200, is200, ih, List.append_assoc]

lemma resolveReadme_spec (fetch : Transport) (repo : PyStr) :
    resolveReadme fetch repo =
      (firstHit fetch (readme_files.map fun f => candidateUrl repo "main".data f)).elim
        ((firstHit fetch (readme_files.map fun f => candidateUrl repo "master".data f)).elim
          ⟨none, none,
            (readme_files.map fun f => candidateUrl repo "main".data f)
              ++ (readme_files.map fun f => candidateUrl repo "master".data f)⟩
          (fun q => ⟨some q.2, some q.1,
            (readme_files.map fun f => candidateUrl repo "main".data f)
              ++ takeThrough200 fetch (readme_files.map fun f => candidateUrl repo "master".data f)⟩))
        (fun p =>
          if p.2.isEmpty then
            (firstHit fetch (readme_files.map fun f => candidateUrl repo "master".data f)).elim
              ⟨some p.2, some p.1,
                takeThrough200 fetch (readme_files.map fun f => candidateUrl repo "main".data f)
                  ++ (readme_files.map fun f => candidateUrl repo "master".data f)⟩
              (fun q => ⟨some q.2, some q.1,
                takeThrough200 fetch (readme_files.map fun f => candidateUrl repo "main".data f)
                  ++ takeThrough200 fetch (readme_files.map fun f => candidateUrl repo "master".data f)⟩)
          else
            ⟨some p.2, some p.1,
              takeThrough200 fetch (readme_files.map fun f => candidateUrl repo "main".data f)⟩) := by
  rw [resolveReadme, branches]
  rw [outerLoop, innerLoop_spec]
  cases hm : firstHit fetch (readme_files.map fun f => candidateUrl repo "main".data f) with
  | none =>
    have hmain : takeThrough200 fetch (readme_files.map fun f => candidateUrl repo "main".data f)
        = readme_files.map fun f => candidateUrl repo "main".data f :=
      takeThrough200_of_no200 _ _ ((firstHit_none_iff _ _).1 hm)
    simp only [Option.elim, contentTruthy, Bool.false_eq_true, if_false]
    rw [outerLoop, innerLoop_spec, outerLoop]
    cases hms : firstHit fetch (readme_files.map fun f => candidateUrl repo "master".data f) with
    | none =>
      have hmaster : takeThrough200 fetch (readme_files.map fun f => candidateUrl repo "master".data f)
          = readme_files.map fun f => candidateUrl repo "master".data f :=
        takeThrough200_of_no200 _ _ ((firstHit_none_iff _ _).1 hms)
      simp [contentTruthy, hmain, hmaster]
    | some q =>
      by_cases hq : q.2.isEmpty
      · simp [contentTruthy, hmain, hq]
      · simp [contentTruthy, hmain, hq]
  | some p =>
    by_cases hp : p.2.isEmpty
    · simp only [Option.elim, contentTruthy, hp, Bool.not_true, Bool.false_eq_true, if_false]
      rw [outerLoop, innerLoop_spec, outerLoop]
      cases hms : firstHit fetch (readme_files.map fun f => candidateUrl repo "master".data f) with
      | none =>
        have hmaster : takeThrough200 fetch (readme_files.map fun f => candidateUrl repo "master".data f)
            = readme_files.map fun f => candidateUrl repo "master".data f :=
          takeThrough200_of_no200 _ _ ((firstHit_none_iff _ _).1 hms)
        simp [contentTruthy, hp, hmaster]
      | some q =>
        by_cases hq : q.2.isEmpty
        · simp [contentTruthy, hq, hp]
        · simp [contentTruthy, hq, hp]
    · simp [Option.elim, contentTruthy, hp]

lemma firstHit_append_of_none (fetch : Transport) (l₁ l₂ : List PyStr)
    (h : firstHit fetch l₁ = none) :
    firstHit fetch (l₁ ++ l₂) = firstHit fetch l₂ := by
  induction l₁ with
  | nil => simp
  | cons u us ih =>
    cases hu : fetch u with
    | exn m =>
      rw [firstHit, hu] at h
      rw [List.cons_append, firstHit, hu]
      exact ih h
    | resp status b =>
      by_cases hs : status = 200
      · subst hs
        rw [firstHit, hu] at h
        simp at h
      · rw [firstHit, hu] at h
        simp only [if_neg hs] at h
        rw [List.cons_append, firstHit, hu]
        simp only [if_neg hs]
        exact ih h

lemma firstHit_append_of_hit (fetch : Transport) (l₁ l₂ : List PyStr) (p : PyStr × PyStr)
    (h : firstHit fetch l₁ = some p) :
    firstHit fetch (l₁ ++ l₂) = some p := by
  induction l₁ with
  | nil => simp [firstHit] at h
  | cons u us ih =>
    cases hu : fetch u with
    | exn m =>
      rw [firstHit, hu] at h
      rw [List.cons_append, firstHit, hu]
      exact ih h
    | resp status b =>
      by_cases hs : status = 200
      · subst hs
        rw [firstHit, hu] at h
        rw [List.cons_append, firstHit, hu]
        simpa using h
      · rw [firstHit, hu] at h
        simp only [if_neg hs] at h
        rw [List.cons_append, firstHit, hu]
        simp only [if_neg hs]
        exact ih h

/-- Claim C1 (amended).  The attempt trace of the README cascade is always an
order-preserving subsequence of the ten candidate URLs taken as the cross
product with branch (`main` before `master`) as the outer loop and filename
(`README.md`, `readme.md`, `Readme.md`, `README.txt`, `readme.txt`) as the
inner loop; and provided no candidate answers status 200 with an EMPTY body,
the attempts are exactly that priority list truncated right after the first
status-200 candidate (all ten when there is none) — so every attempted
`main` candidate precedes every attempted `master` candidate and nothing is
attempted after the first success.  (As originally stated the claim is
false: a 200-with-empty-body response breaks the inner loop but not the
outer one, skipping the rest of that branch's filenames while continuing
with the next branch — see the counterexample.) -/
theorem C1_candidate_order :
    (∀ (fetch : Transport) (repo : PyStr),
        List.Sublist (resolveReadme fetch repo).attempts (candidates repo))
    ∧ (∀ (fetch : Transport) (repo : PyStr),
        (∀ u ∈ candidates repo, isEmptyHit (fetch u) = false) →
        (resolveReadme fetch repo).attempts = takeThrough200 fetch (candidates repo)) := by
  constructor
  · intro fetch repo
    rw [resolveReadme_spec, candidates_eq]
    cases hm : firstHit fetch (readme_files.map fun f => candidateUrl repo "main".data f) with
    | none =>
      cases hms : firstHit fetch (readme_files.map fun f => candidateUrl repo "master".data f) with
      | none => simp
      | some q =>
        simp only [Option.elim]
        exact List.Sublist.append (List.Sublist.refl _) (takeThrough200_sublist _ _)
    | some p =>
      by_cases hp : p.2.isEmpty
      · simp only [Option.elim, hp, if_true]
        cases hms : firstHit fetch (readme_files.map fun f => candidateUrl repo "master".data f) with
        | none =>
          simp only [Option.elim]
          exact List.Sublist.append (takeThrough200_sublist _ _) (List.Sublist.refl _)
        | some q =>
          simp only [Option.elim]
          exact List.Sublist.append (takeThrough200_sublist _ _) (takeThrough200_sublist _ _)
      · simp only [Option.elim, hp, if_false]
        exact (takeThrough200_sublist _ _).trans (List.sublist_append_left _ _)
  · intro fetch repo hne
    rw [resolveReadme_spec, candidates_eq]
    cases hm : firstHit fetch (readme_files.map fun f => candidateUrl repo "main".data f) with
    | none =>
      cases hms : firstHit fetch (readme_files.map fun f => candidateUrl repo "master".data f) with
      | none =>
        have h1 := takeThrough200_append_of_none fetch _
          (readme_files.map fun f => candidateUrl repo "master".data f) hm
        have h2 := takeThrough200_of_no200 fetch _ ((firstHit_none_iff _ _).1 hms)
        simp only [Option.elim]
        rw [h1, h2]
      | some q =>
        have h1 := takeThrough200_append_of_none fetch _
          (readme_files.map fun f => candidateUrl repo "master".data f) hm
        simp only [Option.elim]
        rw [h1]
    | some p =>
      obtain ⟨u, b⟩ := p
      obtain ⟨hmem, hfe⟩ := firstHit_eq_some fetch _ u b hm
      have hbne : b.isEmpty = false := by
        have := hne u (by rw [candidates_eq]; exact List.mem_append_left _ hmem)
        rw [hfe] at this
        simpa [isEmptyHit] using this
      simp only [Option.elim, hbne, Bool.false_eq_true, if_false]
      rw [takeThrough200_append_of_hit fetch _ _ _ hm]

/-- Witness for C1 at a transport where every candidate misses: all ten
candidates are attempted, in the canonical priority order. -/
theorem C1_candidate_order_witness :
    (∀ u ∈ candidates exRepo, isEmptyHit (fetchAll404 u) = false)
    ∧ (resolveReadme fetchAll404 exRepo).attempts
        = takeThrough200 fetchAll404 (candidates exRepo) :=
  ⟨by decide, C1_candidate_order.2 fetchAll404 exRepo (by decide)⟩

/-- Counterexample to C1 as stated: when `main/README.md` answers 200 with an
empty body, the code attempts `main/README.md` and then jumps straight to the
five `master` candidates — `main/readme.md` is never attempted even though
every `master` candidate is, and candidates keep being attempted after the
first status-200 response. -/
theorem C1_candidate_order_counterexample :
    (resolveReadme fetchEmptyMainHit exRepo).attempts =
      [candidateUrl exRepo "main".data "README.md".data,
       candidateUrl exRepo "master".data "README.md".data,
       candidateUrl exRepo "master".data "readme.md".data,
       candidateUrl exRepo "master".data "Readme.md".data,
       candidateUrl exRepo "master".data "README.txt".data,
       candidateUrl exRepo "master".data "readme.txt".data]
    ∧ candidateUrl exRepo "main".data "readme.md".data ∉
        (resolveReadme fetchEmptyMainHit exRepo).attempts
    ∧ is200 (fetchEmptyMainHit (candidateUrl exRepo "main".data "README.md".data)) = true := by
  decide

/-- Claim C2 (amended).  Provided no candidate answers status 200 with an
EMPTY body, the cascade stops at the first candidate (in priority order)
whose fetch returns status 200 and records that candidate's URL and body as
the result; and when no candidate returns 200 at all, every non-200 response
and every swallowed transport exception merely advances the cascade — all
ten candidates are attempted and nothing is recorded.  (As originally
stated the claim is false: a 200 response with an empty body does not stop
the cascade, and a later 200 overrides it — see the counterexample.) -/
theorem C2_stop_at_first_success :
    ∀ (fetch : Transport) (repo : PyStr),
      (∀ u ∈ candidates repo, isEmptyHit (fetch u) = false) →
      (∀ u b, firstHit fetch (candidates repo) = some (u, b) →
          (resolveReadme fetch repo).readme_content = some b
          ∧ (resolveReadme fetch repo).found_url = some u)
      ∧ (firstHit fetch (candidates repo) = none →
          (resolveReadme fetch repo).readme_content = none
          ∧ (resolveReadme fetch repo).found_url = none
          ∧ (resolveReadme fetch repo).attempts = candidates repo) := by
  intro fetch repo hne
  constructor
  · intro u b hub
    rw [candidates_eq] at hub
    rw [resolveReadme_spec]
    cases hm : firstHit fetch (readme_files.map fun f => candidateUrl repo "main".data f) with
    | none =>
      rw [firstHit_append_of_none fetch _ _ hm] at hub
      rw [hub]
      exact ⟨rfl, rfl⟩
    | some p =>
      obtain ⟨v, c⟩ := p
      obtain ⟨hmem, hfe⟩ := firstHit_eq_some fetch _ v c hm
      have hcne : c.isEmpty = false := by
        have := hne v (by rw [candidates_eq]; exact List.mem_append_left _ hmem)
        rw [hfe] at this
        simpa [isEmptyHit] using this
      rw [firstHit_append_of_hit fetch _ _ _ hm] at hub
      simp only [Option.some.injEq, Prod.mk.injEq] at hub
      obtain ⟨hv, hc⟩ := hub
      subst hv; subst hc
      simp [Option.elim, hcne]
  · intro h0
    rw [candidates_eq] at h0
    have hmain : firstHit fetch (readme_files.map fun f => candidateUrl repo "main".data f) = none := by
      rw [firstHit_none_iff]
      intro u hu
      exact (firstHit_none_iff _ _).1 h0 u (List.mem_append_left _ hu)
    have hmaster : firstHit fetch (readme_files.map fun f => candidateUrl repo "master".data f) = none := by
      rw [firstHit_none_iff]
      intro u hu
      exact (firstHit_none_iff _ _).1 h0 u (List.mem_append_right _ hu)
    rw [resolveReadme_spec, hmain, hmaster]
    exact ⟨rfl, rfl, (candidates_eq repo).symm⟩

/-- Witness for C2 at a transport whose only 200 is the third candidate
`main/Readme.md` with body `hello`: exactly that candidate's URL and body
are recorded. -/
theorem C2_stop_at_first_success_witness :
    (∀ u ∈ candidates exRepo, isEmptyHit (fetchThirdHit u) = false)
    ∧ firstHit fetchThirdHit (candidates exRepo)
        = some (candidateUrl exRepo "main".data "Readme.md".data, "hello".data)
    ∧ (resolveReadme fetchThirdHit exRepo).readme_content = some "hello".data
    ∧ (resolveReadme fetchThirdHit exRepo).found_url
        = some (candidateUrl exRepo "main".data "Readme.md".data) :=
  ⟨by decide, by decide,
   (C2_stop_at_first_success fetchThirdHit exRepo (by decide)).1
      (candidateUrl exRepo "main".data "Readme.md".data) "hello".data (by decide) |>.1,
   (C2_stop_at_first_success fetchThirdHit exRepo (by decide)).1
      (candidateUrl exRepo "main".data "Readme.md".data) "hello".data (by decide) |>.2⟩

/-- Counterexample to C2 as stated: the first candidate returning status 200
is `main/README.md` (with an empty body), yet the cascade does not stop
there — the recorded source is `master/README.md` with body `hello`. -/
theorem C2_stop_at_first_success_counterexample :
    firstHit fetchEmptyThenMaster (candidates exRepo)
      = some (candidateUrl exRepo "main".data "README.md".data, [])
    ∧ (resolveReadme fetchEmptyThenMaster exRepo).found_url
        = some (candidateUrl exRepo "master".data "README.md".data)
    ∧ (resolveReadme fetchEmptyThenMaster exRepo).readme_content = some "hello".data := by
  decide

/-- Claim C3.  A retrieved body longer than 50,000 characters is replaced by
exactly its first 50,000 characters followed by the truncation marker; a
body of at most 50,000 characters is returned unmodified. -/
theorem C3_truncation (content : PyStr) :
    (content.length > 50000 →
        truncateReadme content = content.take 50000 ++ truncMarker)
    ∧ (content.length ≤ 50000 → truncateReadme content = content) := by
  constructor
  · intro h
    rw [truncateReadme, if_pos h]
  · intro h
    rw [truncateReadme, if_neg (by omega)]

/-- Witness for C3 at a body of exactly 50,001 characters (truncated) and a
body of 2 characters (unmodified). -/
theorem C3_truncation_witness :
    (List.replicate 50001 'a').length > 50000
    ∧ truncateReadme (List.replicate 50001 'a')
        = (List.replicate 50001 'a').take 50000 ++ truncMarker
    ∧ "ok".data.length ≤ 50000
    ∧ truncateReadme "ok".data = "ok".data :=
  ⟨by simp only [List.length_replicate]; omega,
   (C3_truncation _).1 (by simp only [List.length_replicate]; omega),
   by decide,
   (C3_truncation _).2 (by decide)⟩

/-- Claim C4.  All three validation errors short-circuit before any network
call: an invalid `since` returns the validation message with an empty fetch
trace; an empty repositories batch returns the batch validation message with
an empty fetch trace; and a trimmed non-empty identifier without `/` yields
the per-repository format-error lines with an empty fetch trace. -/
theorem C4_validation_before_network :
    (∀ (since language dateStr weekdayStr : PyStr) (fetch : PyStr → TrendFetchResult),
        since ∉ valid_since →
        getGithubTrending since language dateStr weekdayStr fetch = (invalidSinceMsg, []))
    ∧ (∀ fetch : Transport, getRepositoryReadme fetch [] = (emptyReposError, []))
    ∧ (∀ (fetch : Transport) (repo : PyStr),
        (pyStrip repo).isEmpty = false → '/' ∉ pyStrip repo →
        processRepo fetch repo = (formatErrorLines (pyStrip repo), [])) := by
  refine ⟨?_, ?_, ?_⟩
  · intro since language dateStr weekdayStr fetch h
    rw [getGithubTrending, if_pos h]
  · intro fetch
    rfl
  · intro fetch repo h1 h2
    simp [processRepo, h1, h2]

/-- Witness for C4 at `since = "hourly"`, the empty batch, and the
slash-free identifier `badrepo`. -/
theorem C4_validation_before_network_witness :
    "hourly".data ∉ valid_since
    ∧ getGithubTrending "hourly".data [] [] [] fetch304 = (invalidSinceMsg, [])
    ∧ getRepositoryReadme fetchAll404 [] = (emptyReposError, [])
    ∧ (pyStrip "badrepo".data).isEmpty = false
    ∧ '/' ∉ pyStrip "badrepo".data
    ∧ processRepo fetchAll404 "badrepo".data = (formatErrorLines (pyStrip "badrepo".data), []) :=
  ⟨by decide,
   C4_validation_before_network.1 "hourly".data [] [] [] fetch304 (by decide),
   C4_validation_before_network.2.1 fetchAll404,
   by decide, by decide,
   C4_validation_before_network.2.2 fetchAll404 "badrepo".data (by decide) (by decide)⟩

/-- Claim C10.  When a candidate on the `main` branch answers status 200
with an empty body (all earlier `main` candidates having missed), the
cascade does not treat it as a success: it skips the remaining filenames on
`main` (the attempt trace is exactly the `main` candidates through the
empty hit, followed by the `master` candidates through their first 200),
it does continue with the `master` branch (the first `master` candidate is
attempted), and if no `master` candidate answers 200 with a non-empty body
the stored content stays falsy and the repository is reported as having no
readable README. -/
theorem C10_empty_body_hit (fetch : Transport) (repo : PyStr)
    (fs₁ : List PyStr) (file : PyStr) (fs₂ : List PyStr)
    (hsplit : readme_files = fs₁ ++ file :: fs₂)
    (hmiss : ∀ f ∈ fs₁, is200 (fetch (candidateUrl repo "main".data f)) = false)
    (hhit : fetch (candidateUrl repo "main".data file) = .resp 200 []) :
    (resolveReadme fetch repo).attempts
        = ((fs₁ ++ [file]).map fun f => candidateUrl repo "main".data f)
            ++ takeThrough200 fetch (readme_files.map fun f => candidateUrl repo "master".data f)
    ∧ candidateUrl repo "master".data "README.md".data ∈ (resolveReadme fetch repo).attempts
    ∧ ((∀ f ∈ readme_files,
          is200 (fetch (candidateUrl repo "master".data f)) = false
            ∨ isEmptyHit (fetch (candidateUrl repo "master".data f)) = true) →
        contentTruthy (resolveReadme fetch repo).readme_content = false
        ∧ (pyStrip repo = repo → repo.isEmpty = false → '/' ∈ repo →
            (processRepo fetch repo).1 = notFoundLines repo)) := by
  have hfm1 : firstHit fetch (fs₁.map fun f => candidateUrl repo "main".data f) = none := by
    rw [firstHit_none_iff]
    intro u hu
    obtain ⟨f, hf, rfl⟩ := List.mem_map.1 hu
    exact hmiss f hf
  have hfm : firstHit fetch (readme_files.map fun f => candidateUrl repo "main".data f)
      = some (candidateUrl repo "main".data file, []) := by
    rw [hsplit, List.map_append, List.map_cons, firstHit_append_of_none fetch _ _ hfm1]
    rw [firstHit, hhit]
    simp
  have h200 : is200 (fetch (candidateUrl repo "main".data file)) = true := by
    rw [hhit]; rfl
  have hTm : takeThrough200 fetch (readme_files.map fun f => candidateUrl repo "main".data f)
      = (fs₁ ++ [file]).map fun f => candidateUrl repo "main".data f := by
    rw [hsplit, List.map_append, List.map_cons,
        takeThrough200_append_of_none fetch _ _ hfm1, takeThrough200]
    simp [h200]
  have hmaster0 : (readme_files.map fun f => candidateUrl repo "master".data f)
      = candidateUrl repo "master".data "README.md".data
          :: (["readme.md".data, "Readme.md".data, "README.txt".data,
               "readme.txt".data].map fun f => candidateUrl repo "master".data f) := rfl
  cases hms : firstHit fetch (readme_files.map fun f => candidateUrl repo "master".data f) with
  | some q =>
    obtain ⟨u2, b2⟩ := q
    have hres : resolveReadme fetch repo =
        ⟨some b2, some u2,
         ((fs₁ ++ [file]).map fun f => candidateUrl repo "main".data f)
           ++ takeThrough200 fetch (readme_files.map fun f => candidateUrl repo "master".data f)⟩ := by
      rw [resolveReadme_spec, hfm, hms]
      simp [Option.elim, hTm]
    refine ⟨by rw [hres], ?_, ?_⟩
    · rw [hres]
      apply List.mem_append_right
      rw [hmaster0, takeThrough200]
      exact List.mem_cons_self _ _
    · intro hm3
      obtain ⟨hq1, hq2⟩ := firstHit_eq_some fetch _ u2 b2 hms
      obtain ⟨f, hf, rfl⟩ := List.mem_map.1 hq1
      rcases hm3 f hf with h | h
      · rw [hq2] at h
        simp [is200] at h
      · rw [hq2] at h
        simp [isEmptyHit] at h
        constructor
        · rw [hres]
          simp [contentTruthy, h]
        · intro hstrip hne hsl
          simp [processRepo, hstrip, hne, hsl, hres, contentTruthy, h]
  | none =>
    have hTmaster : takeThrough200 fetch (readme_files.map fun f => candidateUrl repo "master".data f)
        = readme_files.map fun f => candidateUrl repo "master".data f :=
      takeThrough200_of_no200 _ _ ((firstHit_none_iff _ _).1 hms)
    have hres : resolveReadme fetch repo =
        ⟨some [], some (candidateUrl repo "main".data file),
         ((fs₁ ++ [file]).map fun f => candidateUrl repo "main".data f)
           ++ (readme_files.map fun f => candidateUrl repo "master".data f)⟩ := by
      rw [resolveReadme_spec, hfm, hms]
      simp [Option.elim, hTm]
    refine ⟨by rw [hres, hTmaster], ?_, ?_⟩
    · rw [hres]
      apply List.mem_append_right
      rw [hmaster0]
      exact List.mem_cons_self _ _
    · intro _
      constructor
      · rw [hres]
        simp [contentTruthy]
      · intro hstrip hne hsl
        simp [processRepo, hstrip, hne, hsl, hres, contentTruthy]

/-- Witness for C10: `main/README.md` answers 200-empty and everything else
404 — only one `main` attempt happens, all five `master` candidates are
attempted, and the repository is reported without a readable README. -/
theorem C10_empty_body_hit_witness :
    (resolveReadme fetchEmptyMainHit exRepo).attempts
        = (([] ++ ["README.md".data]).map fun f => candidateUrl exRepo "main".data f)
            ++ takeThrough200 fetchEmptyMainHit
                (readme_files.map fun f => candidateUrl exRepo "master".data f)
    ∧ candidateUrl exRepo "master".data "README.md".data
        ∈ (resolveReadme fetchEmptyMainHit exRepo).attempts
    ∧ contentTruthy (resolveReadme fetchEmptyMainHit exRepo).readme_content = false
    ∧ (processRepo fetchEmptyMainHit exRepo).1 = notFoundLines exRepo := by
  have h := C10_empty_body_hit fetchEmptyMainHit exRepo []
    "README.md".data ["readme.md".data, "Readme.md".data, "README.txt".data, "readme.txt".data]
    (by decide) (by decide) (by decide)
  have h3 := h.2.2 (by decide)
  exact ⟨h.1, h.2.1, h3.1, h3.2 (by decide) (by decide) (by decide)⟩

/-- Claim C5.  An entry is emitted for a fragment exactly when the `h2.h3`
title element and its anchor are both present; every other field falls back
independently to its documented default (`No description`, `Unknown`, `"0"`)
without voiding the entry; and the emitted entries are exactly the
per-fragment extractions in document order. -/
theorem C5_emission_invariant :
    (∀ articles : List Article, extractEntries articles = articles.filterMap extractEntry)
    ∧ (∀ a : Article,
        (extractEntry a).isSome = true
          ↔ ∃ te link, a.titleElem = some te ∧ te.link = some link)
    ∧ (∀ (a : Article) (e : TrendingEntry), extractEntry a = some e →
        (a.descriptionElem = none → e.description = "No description".data)
        ∧ (∀ d, a.descriptionElem = some d → e.description = d)
        ∧ (a.languageElem = none → e.language = "Unknown".data)
        ∧ (∀ d, a.languageElem = some d → e.language = d)
        ∧ (a.starLink = none → e.totalStars = "0".data)
        ∧ (∀ d, a.starLink = some d → e.totalStars = d)
        ∧ (a.forkLink = none → e.totalForks = "0".data)
        ∧ (∀ d, a.forkLink = some d → e.totalForks = d)
        ∧ e.periodStars = findPeriodStars a.spans) := by
  refine ⟨?_, ?_, ?_⟩
  · intro articles
    induction articles with
    | nil => rfl
    | cons a rest ih =>
      cases h : extractEntry a <;> simp [extractEntries, h, ih]
  · intro a
    rcases ht : a.titleElem with _ | te
    · simp [extractEntry, ht]
    · rcases hl : te.link with _ | l
      · simp [extractEntry, ht, hl]
      · simp [extractEntry, ht, hl]
  · intro a e h
    rcases ht : a.titleElem with _ | te
    · simp [extractEntry, ht] at h
    · rcases hl : te.link with _ | l
      · simp [extractEntry, ht, hl] at h
      · simp only [extractEntry, ht, hl, Option.some.injEq] at h
        subst h
        refine ⟨fun hd => by simp [hd], fun d hd => by simp [hd],
          fun hd => by simp [hd], fun d hd => by simp [hd],
          fun hd => by simp [hd], fun d hd => by simp [hd],
          fun hd => by simp [hd], fun d hd => by simp [hd], rfl⟩

/-- Witness for C5 at a two-fragment page: one fragment with only the title
anchor (all other fields default), one without a title (skipped). -/
theorem C5_emission_invariant_witness :
    extractEntries [exArticleBare, exArticleNoTitle]
        = [exArticleBare, exArticleNoTitle].filterMap extractEntry
    ∧ exEntryBare.description = "No description".data
    ∧ exEntryBare.totalStars = "0".data
    ∧ exEntryBare.periodStars = findPeriodStars exArticleBare.spans :=
  ⟨C5_emission_invariant.1 _,
   (C5_emission_invariant.2.2 exArticleBare exEntryBare (by decide)).1 (by decide),
   (C5_emission_invariant.2.2 exArticleBare exEntryBare (by decide)).2.2.2.2.1 (by decide),
   (C5_emission_invariant.2.2 exArticleBare exEntryBare (by decide)).2.2.2.2.2.2.2.2⟩

/-- Claim C6 (amended).  The period-stars field scans the fragment's span
texts in order for the first whose lowered text contains `stars` together
with ANY of the three time-window phrases (`today`, `this week`,
`this month`) — the requested `since` granularity is never consulted —
extracts from that span the numeric token (digits with optional comma
separators) immediately preceding the word `star`/`stars`, and yields `"0"`
when no span matches or when the first matching span has no such token
(later spans are not examined).  (As originally stated — with the phrase
required to MATCH the `since` granularity — the claim is false; see the
counterexample.) -/
theorem C6_period_stars :
    (∀ spans : List PyStr, (∀ t ∈ spans, isPeriodSpan t = false) →
        findPeriodStars spans = "0".data)
    ∧ (∀ (l₁ : List PyStr) (t : PyStr) (l₂ : List PyStr),
        (∀ u ∈ l₁, isPeriodSpan u = false) → isPeriodSpan t = true →
        findPeriodStars (l₁ ++ t :: l₂) = (searchNumStars t).getD "0".data)
    ∧ (∀ (a : Article) (e : TrendingEntry), extractEntry a = some e →
        e.periodStars = findPeriodStars a.spans) := by
  refine ⟨?_, ?_, ?_⟩
  · intro spans h
    induction spans with
    | nil => rfl
    | cons t rest ih =>
      rw [findPeriodStars, if_neg (by simp [h t (List.mem_cons_self _ _)])]
      exact ih fun u hu => h u (List.mem_cons_of_mem _ hu)
  · intro l₁ t l₂ h1 ht
    induction l₁ with
    | nil =>
      simp only [List.nil_append]
      rw [findPeriodStars, if_pos ht]
      cases hs : searchNumStars t <;> simp [hs]
    | cons u us ih =>
      rw [List.cons_append, findPeriodStars, if_neg (by simp [h1 u (List.mem_cons_self _ _)])]
      exact ih fun v hv => h1 v (List.mem_cons_of_mem _ hv)
  · intro a e h
    rcases ht : a.titleElem with _ | te
    · simp [extractEntry, ht] at h
    · rcases hl : te.link with _ | l
      · simp [extractEntry, ht, hl] at h
      · simp only [extractEntry, ht, hl, Option.some.injEq] at h
        subst h
        rfl

/-- Witness for C6: the first span (`56 forks`) fails the test, the second
(`12 stars today`) passes and its token is extracted; and a span list whose
spans all fail the test yields `"0"`. -/
theorem C6_period_stars_witness :
    findPeriodStars (["56 forks".data] ++ "12 stars today".data :: [])
        = (searchNumStars "12 stars today".data).getD "0".data
    ∧ findPeriodStars ["10 forks today".data] = "0".data :=
  ⟨C6_period_stars.2.1 ["56 forks".data] "12 stars today".data [] (by decide) (by decide),
   C6_period_stars.1 ["10 forks today".data] (by decide)⟩

/-- Counterexample to C6 as stated: for `since = "daily"` and a fragment
whose only span reads `5 stars this month`, the claim's granularity-matched
scan (no `today` phrase present) must yield `"0"`, but the code extracts
`"5"` — its test accepts any of the three phrases regardless of `since`. -/
theorem C6_period_stars_counterexample :
    (extractEntry exArticleFull).map (fun e => e.periodStars) = some "5".data
    ∧ claimedPeriodStars "daily".data exArticleFull.spans = "0".data
    ∧ findPeriodStars exArticleFull.spans
        ≠ claimedPeriodStars "daily".data exArticleFull.spans := by
  decide

/-- Claim C7.  `get_github_trending` always returns one of the four text
renderings — the `since` validation message, the network-error message (for
a raised transport exception or a 4xx/5xx status caught from
`raise_for_status`), the no-results message, or the assembled report — so
every failure class surfaces as text in the returned payload and the
boundary never propagates a fault. -/
theorem C7_always_text (since language dateStr weekdayStr : PyStr)
    (fetch : PyStr → TrendFetchResult) :
    (getGithubTrending since language dateStr weekdayStr fetch).1 = invalidSinceMsg
    ∨ (∃ e, (getGithubTrending since language dateStr weekdayStr fetch).1
          = networkErrorMsg e (buildTrendingUrl since language))
    ∨ (getGithubTrending since language dateStr weekdayStr fetch).1
        = noResultsMsg (buildTrendingUrl since language)
    ∨ (∃ articles : List Article, articles ≠ []
        ∧ (getGithubTrending since language dateStr weekdayStr fetch).1
            = pyJoinNL (trendingHeader since language dateStr weekdayStr articles.length
                ++ articleLoop (sinceDisplay since) 1 articles ++ trendingTrailer)) := by
  by_cases hv : since ∈ valid_since
  · cases hf : fetch (buildTrendingUrl since language) with
    | exn msg =>
      right; left
      exact ⟨msg, by simp [getGithubTrending, hv, hf]⟩
    | resp status articles =>
      by_cases hr : 400 ≤ status ∧ status < 600
      · right; left
        exact ⟨httpErrorText status (buildTrendingUrl since language),
          by simp [getGithubTrending, hv, hf, hr]⟩
      · by_cases ha : articles.isEmpty
        · right; right; left
          simp [getGithubTrending, hv, hf, hr, ha]
        · right; right; right
          refine ⟨articles, ?_, by simp [getGithubTrending, hv, hf, hr, ha]⟩
          simpa using ha
  · left
    simp [getGithubTrending, hv]

/-- Claim C8 (amended).  A raised transport exception, or a status in
400..599 (exactly the statuses `raise_for_status` raises for), produces the
network-error report, which embeds the attempted URL; a fetch that is not
caught that way and carries no project fragments produces the no-results
report, which also embeds the attempted URL; and the two report templates
differ as strings for every exception text and every pair of URLs.  (As
originally stated — with "non-2xx status" in place of 4xx/5xx — the claim
is false: a 304 response does not raise, falls through to the fragment
scan, and yields the no-results wording; see the counterexample.) -/
theorem C8_error_reports :
    (∀ (since language dateStr weekdayStr msg : PyStr) (fetch : PyStr → TrendFetchResult),
        since ∈ valid_since →
        fetch (buildTrendingUrl since language) = .exn msg →
        (getGithubTrending since language dateStr weekdayStr fetch).1
          = networkErrorMsg msg (buildTrendingUrl since language))
    ∧ (∀ (since language dateStr weekdayStr : PyStr) (fetch : PyStr → TrendFetchResult)
        (status : Nat) (articles : List Article),
        since ∈ valid_since →
        fetch (buildTrendingUrl since language) = .resp status articles →
        400 ≤ status → status < 600 →
        (getGithubTrending since language dateStr weekdayStr fetch).1
          = networkErrorMsg (httpErrorText status (buildTrendingUrl since language))
              (buildTrendingUrl since language))
    ∧ (∀ (since language dateStr weekdayStr : PyStr) (fetch : PyStr → TrendFetchResult)
        (status : Nat),
        since ∈ valid_since →
        fetch (buildTrendingUrl since language) = .resp status [] →
        ¬(400 ≤ status ∧ status < 600) →
        (getGithubTrending since language dateStr weekdayStr fetch).1
          = noResultsMsg (buildTrendingUrl since language))
    ∧ (∀ e url : PyStr, ∃ pre suf, networkErrorMsg e url = pre ++ url ++ suf)
    ∧ (∀ url : PyStr, ∃ pre, noResultsMsg url = pre ++ url)
    ∧ (∀ e url url' : PyStr, networkErrorMsg e url ≠ noResultsMsg url') := by
  refine ⟨?_, ?_, ?_, ?_, ?_, ?_⟩
  · intro since language d w msg fetch hv hf
    simp [getGithubTrending, hv, hf]
  · intro since language d w fetch status articles hv hf h4 h6
    have hr : 400 ≤ status ∧ status < 600 := ⟨h4, h6⟩
    simp [getGithubTrending, hv, hf, hr]
  · intro since language d w fetch status hv hf hr
    simp [getGithubTrending, hv, hf, hr]
  · intro e url
    refine ⟨"❌ Network request error: ".data ++ e ++ "\nRequested URL: ".data,
      "\nSuggest checking network connection or retry later".data, ?_⟩
    simp [networkErrorMsg]
  · intro url
    exact ⟨"❌ No trending projects found, possible page structure change or network issue\nRequested URL: ".data,
      rfl⟩
  · intro e url url' h
    have h4 := congrArg (List.take 4) h
    simp only [networkErrorMsg, noResultsMsg, List.append_assoc] at h4
    rw [List.take_append_of_le_length (by decide),
        List.take_append_of_le_length (by decide)] at h4
    exact absurd h4 (by decide)

/-- Witness for C8: an exception, a 500 and a fragment-free 304, each at the
unfiltered daily URL. -/
theorem C8_error_reports_witness :
    (getGithubTrending "daily".data [] [] [] fetchTrendExn).1
        = networkErrorMsg "timeout".data (buildTrendingUrl "daily".data [])
    ∧ (getGithubTrending "daily".data [] [] [] fetch500).1
        = networkErrorMsg (httpErrorText 500 (buildTrendingUrl "daily".data []))
            (buildTrendingUrl "daily".data [])
    ∧ (getGithubTrending "daily".data [] [] [] fetch304).1
        = noResultsMsg (buildTrendingUrl "daily".data [])
    ∧ networkErrorMsg "timeout".data (buildTrendingUrl "daily".data [])
        ≠ noResultsMsg (buildTrendingUrl "daily".data []) :=
  ⟨C8_error_reports.1 "daily".data [] [] [] "timeout".data fetchTrendExn (by decide) rfl,
   C8_error_reports.2.1 "daily".data [] [] [] fetch500 500 [] (by decide) rfl
     (by decide) (by decide),
   C8_error_reports.2.2.1 "daily".data [] [] [] fetch304 304 (by decide) rfl (by decide),
   C8_error_reports.2.2.2.2.2 "timeout".data _ _⟩

/-- Counterexample to C8 as stated: a 304 response (non-2xx) with no project
fragments yields the no-results report, not the transport-error report. -/
theorem C8_error_reports_counterexample :
    (getGithubTrending "daily".data [] [] [] fetch304).1
        = noResultsMsg (buildTrendingUrl "daily".data [])
    ∧ (getGithubTrending "daily".data [] [] [] fetch304).1
        ≠ networkErrorMsg (httpErrorText 304 (buildTrendingUrl "daily".data []))
            (buildTrendingUrl "daily".data []) := by
  decide

lemma innerLoopZh_eq (fetch : Transport) (repo b : PyStr) :
    ∀ (files : List PyStr) (st : CascadeState),
    innerLoopZh fetch repo b files st = innerLoop fetch repo b files st := by
  intro files
  induction files with
  | nil => intro st; rfl
  | cons f fs ih =>
    intro st
    cases h : fetch (candidateUrl repo b f) with
    | exn m => simp [innerLoopZh, innerLoop, h, ih]
    | resp status body =>
      by_cases hs : status = 200
      · subst hs
        simp [innerLoopZh, innerLoop, h]
      · simp [innerLoopZh, innerLoop, h, hs, ih]

lemma outerLoopZh_eq (fetch : Transport) (repo : PyStr) :
    ∀ (bs : List PyStr) (st : CascadeState),
    outerLoopZh fetch repo bs st = outerLoop fetch repo bs st := by
  intro bs
  induction bs with
  | nil => intro st; rfl
  | cons b rest ih =>
    intro st
    rw [outerLoopZh, outerLoop, innerLoopZh_eq]
    by_cases hc : contentTruthy (innerLoop fetch repo b readme_files st).readme_content
    · simp [hc]
    · simp [hc, ih]

/-- Claim C9.  The English and Chinese files implement the same core logic:
identical `since` whitelist, identical URL construction, identical
emit-or-skip decision per fragment, identical extracted values for every
field that does not embed localized fallback text (and identical
description/language whenever the element is present, so the sentinels are
the only divergence), an identical README cascade (same state, same
attempts, same stop), and an identical truncation decision with the same
kept 50,000-character prefix — only the appended marker text differs. -/
theorem C9_localized_equivalence :
    valid_sinceZh = valid_since
    ∧ (∀ since language : PyStr,
        buildTrendingUrlZh since language = buildTrendingUrl since language)
    ∧ (∀ a : Article, (extractEntryZh a).isSome = (extractEntry a).isSome)
    ∧ (∀ (a : Article) (e ez : TrendingEntry),
        extractEntry a = some e → extractEntryZh a = some ez →
        ez.title = e.title ∧ ez.projectUrl = e.projectUrl
        ∧ ez.totalStars = e.totalStars ∧ ez.totalForks = e.totalForks
        ∧ ez.periodStars = e.periodStars
        ∧ (∀ d, a.descriptionElem = some d → ez.description = e.description)
        ∧ (∀ d, a.languageElem = some d → ez.language = e.language))
    ∧ (∀ (fetch : Transport) (repo : PyStr),
        resolveReadmeZh fetch repo = resolveReadme fetch repo)
    ∧ (∀ c : PyStr,
        (c.length ≤ 50000 → truncateReadmeZh c = c ∧ truncateReadme c = c)
        ∧ (c.length > 50000 →
            truncateReadmeZh c = c.take 50000 ++ truncMarkerZh
            ∧ truncateReadme c = c.take 50000 ++ truncMarker)) := by
  refine ⟨rfl, fun _ _ => rfl, ?_, ?_, ?_, ?_⟩
  · intro a
    rcases ht : a.titleElem with _ | te
    · simp [extractEntry, extractEntryZh, ht]
    · rcases hl : te.link with _ | l
      · simp [extractEntry, extractEntryZh, ht, hl]
      · simp [extractEntry, extractEntryZh, ht, hl]
  · intro a e ez h hz
    rcases ht : a.titleElem with _ | te
    · simp [extractEntry, ht] at h
    · rcases hl : te.link with _ | l
      · simp [extractEntry, ht, hl] at h
      · simp only [extractEntry, ht, hl, Option.some.injEq] at h
        simp only [extractEntryZh, ht, hl, Option.some.injEq] at hz
        subst h
        subst hz
        exact ⟨rfl, rfl, rfl, rfl, rfl,
          fun d hd => by simp [hd], fun d hd => by simp [hd]⟩
  · intro fetch repo
    rw [resolveReadmeZh, resolveReadme, outerLoopZh_eq]
  · intro c
    constructor
    · intro h
      constructor
      · rw [truncateReadmeZh, if_neg (by omega)]
      · rw [truncateReadme, if_neg (by omega)]
    · intro h
      constructor
      · rw [truncateReadmeZh, if_pos h]
      · rw [truncateReadme, if_pos h]

/-- Witness for C9 at a concrete transport, a short body, and the
fully-populated fragment (where both extractors agree on every field). -/
theorem C9_localized_equivalence_witness :
    resolveReadmeZh fetchThirdHit exRepo = resolveReadme fetchThirdHit exRepo
    ∧ truncateReadmeZh "ok".data = "ok".data
    ∧ truncateReadme "ok".data = "ok".data
    ∧ exEntryFull.periodStars = exEntryFull.periodStars :=
  ⟨C9_localized_equivalence.2.2.2.2.1 fetchThirdHit exRepo,
   ((C9_localized_equivalence.2.2.2.2.2 "ok".data).1 (by decide)).1,
   ((C9_localized_equivalence.2.2.2.2.2 "ok".data).1 (by decide)).2,
   (C9_localized_equivalence.2.2.2.1 exArticleFull exEntryFull exEntryFull
      (by decide) (by decide)).2.2.2.2.1⟩
